import Mathlib

/-!
Verification of the HireReadyAI backend (FastAPI service) against its
natural-language specification.

The development shallowly embeds the pure computational content of the
four source files:
  - Backend/routers/analyze.py   (answer scorer, text analysis, report)
  - Backend/routers/interview.py (question catalog)
  - Backend/routers/resume.py    (skill extraction, personalized questions)
Python floats are modelled as exact rationals, Python ints as ℤ/ℕ, and
fallible endpoints as Except values.
-/

set_option linter.unusedVariables false

/-! ## Python string primitives used by the code -/

/-- Python str.lower, modelled character-wise (ASCII case folding, which is
all the fixed keyword tables exercise). -/
def pyLower (s : String) : String := String.mk (s.data.map Char.toLower)

/-- Python str.count: the number of NON-overlapping occurrences of the
pattern, scanning left to right and skipping past each match.  Fuel-based
structural recursion; fuel = haystack length suffices because every step
consumes at least one character.  Modelled for nonempty patterns, which is
all the code passes. -/
def pyCountAux : Nat → List Char → List Char → Nat
  | 0, _, _ => 0
  | _ + 1, [], _ => 0
  | fuel + 1, c :: rest, pat =>
    if pat.isPrefixOf (c :: rest) then
      1 + pyCountAux fuel (List.drop (pat.length - 1) rest) pat
    else
      pyCountAux fuel rest pat

/-- Python s.count(pat). -/
def pyCount (s pat : String) : Nat := pyCountAux s.data.length s.data pat.data

/-- Count of ALL occurrences of the pattern, overlapping ones included:
one test at every start position.  This is NOT what Python str.count does;
it is the counting the specification sentence for the filler penalty
describes, kept here to compare against the code. -/
def countOverlapAux : List Char → List Char → Nat
  | [], _ => 0
  | c :: rest, pat => (if pat.isPrefixOf (c :: rest) then 1 else 0) + countOverlapAux rest pat

/-- Overlapping occurrence count of pat in s. -/
def countOverlapping (s pat : String) : Nat := countOverlapAux s.data pat.data

/-- Python membership test pat in s (substring containment). -/
def pyContainsAux : List Char → List Char → Bool
  | hay, pat =>
    pat.isPrefixOf hay ||
      match hay with
      | [] => false
      | _ :: t => pyContainsAux t pat

/-- Python pat in s. -/
def pyContains (s pat : String) : Bool := pyContainsAux s.data pat.data

/-- Python str.split() with no separator: split on runs of whitespace,
ignoring leading and trailing whitespace.  The accumulator holds the
(reversed) characters of the token currently being read. -/
def pySplitAux : List Char → List Char → List String
  | [], acc => if acc.isEmpty then [] else [String.mk acc.reverse]
  | c :: rest, acc =>
    if c.isWhitespace then
      if acc.isEmpty then pySplitAux rest [] else String.mk acc.reverse :: pySplitAux rest []
    else
      pySplitAux rest (c :: acc)

/-- Python s.split(). -/
def pySplit (s : String) : List String := pySplitAux s.data []

/-- Python round() applied to an exact rational value: round half to even
(banker's rounding), Python's rounding mode. -/
def pyRound (q : ℚ) : ℤ :=
  if q - (⌊q⌋ : ℚ) < 1/2 then ⌊q⌋
  else if 1/2 < q - (⌊q⌋ : ℚ) then ⌊q⌋ + 1
  else if ⌊q⌋ % 2 = 0 then ⌊q⌋ else ⌊q⌋ + 1

/-- Python round(x, 1): round to one decimal digit. -/
def pyRound1 (q : ℚ) : ℚ := (pyRound (q * 10) : ℚ) / 10

/-! ## Answer scorer: calculate_confidence_score (analyze.py lines 11-85) -/

/-- analyze.py lines 27-38: base score from word count. -/
def length_score (word_count : ℕ) : ℕ :=
  if word_count < 10 then 20
  else if word_count < 30 then 45
  else if word_count < 50 then 65
  else if word_count ≤ 150 then 90
  else if word_count ≤ 250 then 75
  else 55

/-- analyze.py lines 42-45: words per minute, 0 when duration is not positive. -/
def wpm (word_count : ℕ) (duration_seconds : ℚ) : ℚ :=
  if 0 < duration_seconds then ((word_count : ℚ) / duration_seconds) * 60 else 0

/-- analyze.py lines 47-54: pace score bands over words per minute. -/
def pace_score (w : ℚ) : ℕ :=
  if 120 ≤ w ∧ w ≤ 160 then 100
  else if (90 ≤ w ∧ w < 120) ∨ (160 < w ∧ w ≤ 190) then 80
  else if (60 ≤ w ∧ w < 90) ∨ (190 < w ∧ w ≤ 220) then 60
  else 40

/-- analyze.py line 57: the fixed filler word list. -/
def filler_words : List String :=
  ["um", "uh", "like", "you know", "basically", "literally", "actually", "so so", "kinda"]

/-- analyze.py line 58: sum of Python str.count of each filler word over the
lowercased transcript. -/
def filler_count (transcript : String) : ℕ :=
  (filler_words.map (fun fw => pyCount (pyLower transcript) fw)).sum

/-- analyze.py lines 66-73 (and the identical inline chain of
generate_report, lines 186-196): rating label from a score. -/
def ratingLabel (score : ℤ) : String :=
  if 85 ≤ score then "Excellent"
  else if 70 ≤ score then "Good"
  else if 50 ≤ score then "Average"
  else "Needs Improvement"

/-- The breakdown dictionary returned by the scorer. -/
structure Breakdown where
  length_score : ℕ
  pace_score : ℕ
  filler_penalty : ℕ
  words_per_minute : ℚ
  filler_count : ℕ
deriving DecidableEq, Repr

/-- The Score Result dictionary returned by the scorer. -/
structure ScoreResult where
  confidence_score : ℤ
  rating : String
  breakdown : Breakdown
deriving DecidableEq, Repr

/-- analyze.py lines 11-85: the full scorer. -/
def calculate_confidence_score (transcript : String) (duration_seconds : ℚ)
    (word_count : ℕ) : ScoreResult :=
  let ls := length_score word_count
  let w := wpm word_count duration_seconds
  let ps := pace_score w
  let fc := filler_count transcript
  let fp := min (fc * 3) 20
  let raw_score : ℚ := (ls : ℚ) * 0.5 + (ps : ℚ) * 0.5 - (fp : ℚ)
  let final_score : ℤ := max 10 (min 100 (pyRound raw_score))
  { confidence_score := final_score
    rating := ratingLabel final_score
    breakdown :=
      { length_score := ls
        pace_score := ps
        filler_penalty := fp
        words_per_minute := pyRound1 w
        filler_count := fc } }

/-! ### Basic scorer lemmas -/

theorem pyRound_intCast (n : ℤ) : pyRound (n : ℚ) = n := by
  simp [pyRound]

theorem confidence_score_def (t : String) (d : ℚ) (wc : ℕ) :
    (calculate_confidence_score t d wc).confidence_score =
      max 10 (min 100 (pyRound ((length_score wc : ℚ) * 0.5 +
        (pace_score (wpm wc d) : ℚ) * 0.5 - (min (filler_count t * 3) 20 : ℕ)))) := rfl

theorem confidence_score_ge (t : String) (d : ℚ) (wc : ℕ) :
    10 ≤ (calculate_confidence_score t d wc).confidence_score := by
  rw [confidence_score_def]
  exact le_max_left _ _

theorem confidence_score_le (t : String) (d : ℚ) (wc : ℕ) :
    (calculate_confidence_score t d wc).confidence_score ≤ 100 := by
  rw [confidence_score_def]
  omega

theorem filler_penalty_def (t : String) (d : ℚ) (wc : ℕ) :
    (calculate_confidence_score t d wc).breakdown.filler_penalty =
      min (filler_count t * 3) 20 := rfl

theorem words_per_minute_def (t : String) (d : ℚ) (wc : ℕ) :
    (calculate_confidence_score t d wc).breakdown.words_per_minute =
      pyRound1 (wpm wc d) := rfl

theorem bd_pace_def (t : String) (d : ℚ) (wc : ℕ) :
    (calculate_confidence_score t d wc).breakdown.pace_score =
      pace_score (wpm wc d) := rfl

theorem bd_length_def (t : String) (d : ℚ) (wc : ℕ) :
    (calculate_confidence_score t d wc).breakdown.length_score =
      length_score wc := rfl

theorem bd_filler_count_def (t : String) (d : ℚ) (wc : ℕ) :
    (calculate_confidence_score t d wc).breakdown.filler_count =
      filler_count t := rfl

theorem rating_def (t : String) (d : ℚ) (wc : ℕ) :
    (calculate_confidence_score t d wc).rating =
      ratingLabel ((calculate_confidence_score t d wc).confidence_score) := rfl

theorem pyRound_zero : pyRound (0 : ℚ) = 0 := by
  have h := pyRound_intCast 0
  simpa using h

/-! ## Claim C1 -/

/-- C1: for every input (transcript, duration ≥ 0, word_count ≥ 0), the
confidence score equals clamp(round(0.5*length_score + 0.5*pace_score -
filler_penalty), 10, 100), and in particular always lies in [10, 100]. -/
theorem C1_clamp_invariant (t : String) (d : ℚ) (wc : ℕ) (hd : 0 ≤ d) :
    (calculate_confidence_score t d wc).confidence_score =
      max 10 (min 100 (pyRound
        (((calculate_confidence_score t d wc).breakdown.length_score : ℚ) * 0.5 +
         ((calculate_confidence_score t d wc).breakdown.pace_score : ℚ) * 0.5 -
         ((calculate_confidence_score t d wc).breakdown.filler_penalty : ℚ)))) ∧
    10 ≤ (calculate_confidence_score t d wc).confidence_score ∧
    (calculate_confidence_score t d wc).confidence_score ≤ 100 :=
  ⟨rfl, confidence_score_ge t d wc, confidence_score_le t d wc⟩

/-- Witness for C1 at transcript = "", duration = 0, word_count = 0. -/
theorem C1_clamp_invariant_witness :
    10 ≤ (calculate_confidence_score "" 0 0).confidence_score ∧
    (calculate_confidence_score "" 0 0).confidence_score ≤ 100 :=
  ⟨(C1_clamp_invariant "" 0 0 le_rfl).2.1, (C1_clamp_invariant "" 0 0 le_rfl).2.2⟩

/-! ## Claim C2 -/

/-- The total filler occurrence count as the claim words it: occurrences
counted WITH overlaps.  (The code instead uses Python str.count, which is
non-overlapping.) -/
def overlappingFillerCount (t : String) : ℕ :=
  (filler_words.map (fun fw => countOverlapping (pyLower t) fw)).sum

/-- C2 counterexample: on transcript "so so so" the filler phrase "so so"
occurs twice with overlaps allowed but Python str.count sees only one
occurrence, so the penalty is 3, not the min(3*2, 20) = 6 the claim
demands. -/
theorem C2_counterexample :
    ¬ ((calculate_confidence_score "so so so" 1 3).breakdown.filler_penalty =
        min (3 * overlappingFillerCount "so so so") 20) := by
  rw [filler_penalty_def]
  decide

/-- C2 amended: for every transcript, filler_penalty equals
min(3 * total non-overlapping (Python str.count) occurrences of the filler
phrases, 20); the penalty never exceeds 20 and is monotonically
non-decreasing in the occurrence count. -/
theorem C2_filler_penalty_amended :
    (∀ (t : String) (d : ℚ) (wc : ℕ),
        (calculate_confidence_score t d wc).breakdown.filler_penalty =
          min (3 * filler_count t) 20) ∧
    (∀ (t : String) (d : ℚ) (wc : ℕ),
        (calculate_confidence_score t d wc).breakdown.filler_penalty ≤ 20) ∧
    (∀ (t₁ t₂ : String) (d₁ d₂ : ℚ) (w₁ w₂ : ℕ),
        filler_count t₁ ≤ filler_count t₂ →
        (calculate_confidence_score t₁ d₁ w₁).breakdown.filler_penalty ≤
          (calculate_confidence_score t₂ d₂ w₂).breakdown.filler_penalty) := by
  refine ⟨?_, ?_, ?_⟩
  · intro t d wc
    rw [filler_penalty_def]
    omega
  · intro t d wc
    rw [filler_penalty_def]
    omega
  · intro t₁ t₂ d₁ d₂ w₁ w₂ h
    rw [filler_penalty_def, filler_penalty_def]
    omega

/-- Witness for C2 amended, monotonicity at "" versus "um". -/
theorem C2_filler_penalty_amended_witness :
    filler_count "" ≤ filler_count "um" ∧
    (calculate_confidence_score "" 0 0).breakdown.filler_penalty ≤
      (calculate_confidence_score "um" 0 0).breakdown.filler_penalty :=
  ⟨by decide, C2_filler_penalty_amended.2.2 "" "um" 0 0 0 0 (by decide)⟩

/-! ## Claim C4 -/

/-- The length-score bands exactly as the claim words them (boundaries at
10, 30, 50, 150, 250). -/
def length_score_claimed (wc : ℕ) : ℕ :=
  if wc < 10 then 20
  else if 10 ≤ wc ∧ wc < 30 then 45
  else if 30 ≤ wc ∧ wc < 50 then 65
  else if 50 ≤ wc ∧ wc ≤ 150 then 90
  else if 151 ≤ wc ∧ wc ≤ 250 then 75
  else 55

/-- C4: for every word_count the code's length_score follows the exact
piecewise bands with boundaries at 10, 30, 50, 150, 250. -/
theorem C4_length_score_bands (wc : ℕ) :
    length_score wc = length_score_claimed wc := by
  unfold length_score length_score_claimed
  split_ifs <;> omega

/-! ## Claim C5 -/

/-- C5: with duration_seconds = 0 no division by zero happens: the reported
words-per-minute is 0, pace_score is 40, and a valid in-range Score Result
is still returned; an empty transcript likewise still yields a valid
in-range score. -/
theorem C5_zero_duration_total :
    (∀ (t : String) (wc : ℕ),
        (calculate_confidence_score t 0 wc).breakdown.words_per_minute = 0 ∧
        (calculate_confidence_score t 0 wc).breakdown.pace_score = 40 ∧
        10 ≤ (calculate_confidence_score t 0 wc).confidence_score ∧
        (calculate_confidence_score t 0 wc).confidence_score ≤ 100) ∧
    (∀ (d : ℚ) (wc : ℕ),
        10 ≤ (calculate_confidence_score "" d wc).confidence_score ∧
        (calculate_confidence_score "" d wc).confidence_score ≤ 100) := by
  constructor
  · intro t wc
    have hw : wpm wc 0 = 0 := by unfold wpm; norm_num
    refine ⟨?_, ?_, confidence_score_ge t 0 wc, confidence_score_le t 0 wc⟩
    · rw [words_per_minute_def, hw]
      unfold pyRound1
      rw [zero_mul, pyRound_zero]
      norm_num
    · rw [bd_pace_def, hw]
      unfold pace_score
      norm_num
  · intro d wc
    exact ⟨confidence_score_ge "" d wc, confidence_score_le "" d wc⟩

/-! ## Claim C6 -/

/-- C6: the worked example: transcript "um um um", duration 10 s,
word_count 20 gives wpm 120, pace_score 100, length_score 45,
filler_count 3, filler_penalty 9, confidence_score 64 (raw 63.5 rounded),
rating "Average". -/
theorem C6_worked_example :
    (calculate_confidence_score "um um um" 10 20).breakdown.words_per_minute = 120 ∧
    (calculate_confidence_score "um um um" 10 20).breakdown.pace_score = 100 ∧
    (calculate_confidence_score "um um um" 10 20).breakdown.length_score = 45 ∧
    (calculate_confidence_score "um um um" 10 20).breakdown.filler_count = 3 ∧
    (calculate_confidence_score "um um um" 10 20).breakdown.filler_penalty = 9 ∧
    (calculate_confidence_score "um um um" 10 20).confidence_score = 64 ∧
    (calculate_confidence_score "um um um" 10 20).rating = "Average" := by
  have hw : wpm 20 10 = 120 := by unfold wpm; norm_num
  have hps : pace_score 120 = 100 := by unfold pace_score; norm_num
  have hls : length_score 20 = 45 := by decide
  have hfc : filler_count "um um um" = 3 := by decide
  have hfloor : ⌊(127:ℚ)/2⌋ = 63 := by
    rw [Int.floor_eq_iff]
    norm_num
  have hround : pyRound ((127:ℚ)/2) = 64 := by
    unfold pyRound
    rw [hfloor]
    norm_num
  have hconf : (calculate_confidence_score "um um um" 10 20).confidence_score = 64 := by
    rw [confidence_score_def, hw, hps, hls, hfc]
    rw [show ((45:ℕ):ℚ) * 0.5 + ((100:ℕ):ℚ) * 0.5 - ((min (3 * 3) 20 : ℕ) : ℚ) = (127:ℚ)/2 by
      push_cast
      norm_num]
    rw [hround]
    decide
  refine ⟨?_, ?_, ?_, ?_, ?_, hconf, ?_⟩
  · rw [words_per_minute_def, hw]
    unfold pyRound1
    rw [show ((120:ℚ) * 10) = ((1200:ℤ):ℚ) by norm_num, pyRound_intCast]
    norm_num
  · rw [bd_pace_def, hw, hps]
  · rw [bd_length_def, hls]
  · rw [bd_filler_count_def, hfc]
  · rw [filler_penalty_def, hfc]
    decide
  · rw [rating_def, hconf]
    decide

/-! ## Question catalog (interview.py) -/

/-- interview.py lines 8-17: the Software Engineer question list (also the
value of DEFAULT_QUESTIONS, line 60). -/
def softwareEngineerQuestions : List String :=
  [ "Tell me about yourself and your software engineering background.",
    "Describe a challenging technical problem you solved recently.",
    "How do you ensure code quality in your projects?",
    "Explain the difference between REST and GraphQL APIs.",
    "How do you approach system design for a scalable application?",
    "Describe your experience with version control and CI/CD pipelines.",
    "How do you handle disagreements with your team about technical decisions?",
    "Where do you see yourself in 5 years as an engineer?" ]

/-- interview.py lines 7-58: the question bank keyed by role. -/
def QUESTION_BANK : List (String × List String) :=
  [ ("Software Engineer", softwareEngineerQuestions),
    ("Frontend Developer",
      [ "Tell me about your experience with React or other frontend frameworks.",
        "How do you optimize a slow-loading web page?",
        "Explain the difference between CSS Grid and Flexbox.",
        "How do you handle state management in large applications?",
        "Describe a complex UI you've built from scratch.",
        "How do you ensure accessibility in your web projects?",
        "What is your approach to responsive design?",
        "How do you stay up to date with frontend trends?" ]),
    ("Data Scientist",
      [ "Walk me through a machine learning project you've worked on.",
        "How do you handle missing data in a dataset?",
        "Explain the difference between supervised and unsupervised learning.",
        "How do you evaluate a model's performance?",
        "Describe your experience with Python data libraries like pandas or NumPy.",
        "What is overfitting and how do you prevent it?",
        "How would you explain a complex model to a non-technical stakeholder?",
        "Describe your experience with data visualization." ]),
    ("Product Manager",
      [ "Tell me about a product you successfully launched.",
        "How do you prioritize features in a product roadmap?",
        "Describe how you gather and analyze user feedback.",
        "How do you handle conflicts between engineering and business needs?",
        "Walk me through how you define product requirements.",
        "How do you measure the success of a product feature?",
        "Describe a time you made a data-driven product decision.",
        "Where do you see the future of this product going?" ]),
    ("DevOps Engineer",
      [ "Describe your experience with containerization tools like Docker or Kubernetes.",
        "How do you design a CI/CD pipeline from scratch?",
        "What strategies do you use for monitoring and alerting?",
        "How do you handle infrastructure as code?",
        "Describe a production incident you resolved and how you handled it.",
        "How do you ensure security in a cloud environment?",
        "What is your approach to disaster recovery planning?",
        "How do you balance speed and stability in deployments?" ]) ]

/-- interview.py line 60. -/
def DEFAULT_QUESTIONS : List String := softwareEngineerQuestions

/-- The payload of a successful single-question response. -/
structure SingleQuestionPayload where
  role : String
  index : ℤ
  total : ℕ
  question : String
  is_last : Bool
deriving DecidableEq, Repr

/-- An unhandled Python runtime error escaping an endpoint (FastAPI turns
it into an HTTP 500 internal server error). -/
inductive PyRuntimeError where
  | nameError (name : String)
deriving DecidableEq, Repr

/-- interview.py lines 74-94: get_single_question.  The out-of-range branch
evaluates the name JSONResponse, but interview.py imports only APIRouter
and Query from fastapi and never defines or imports JSONResponse, so
executing that branch raises NameError at line 83 — modelled as the error
case. -/
def get_single_question (index : ℤ) (role : String) :
    Except PyRuntimeError SingleQuestionPayload :=
  let questions := (QUESTION_BANK.lookup role).getD DEFAULT_QUESTIONS
  if index < 0 ∨ (questions.length : ℤ) ≤ index then
    Except.error (PyRuntimeError.nameError "JSONResponse")
  else
    Except.ok
      { role := role
        index := index
        total := questions.length
        question := questions.getD index.toNat ""
        is_last := index == (questions.length : ℤ) - 1 }

/-! ## Claim C3 -/

/-- C3: the claim says every out-of-range index yields a structured 404
"index out of range" payload carrying the total question count.  The code
instead evaluates the unimported name JSONResponse, so every out-of-range
request raises NameError (surfacing as an unhandled HTTP 500) and no
structured 404 payload is ever produced.  Evaluated at the failing inputs
(role "Software Engineer", index 8) and (role "Software Engineer",
index -1); an in-range lookup still succeeds. -/
theorem C3_out_of_range_raises_name_error :
    get_single_question 8 "Software Engineer" =
      Except.error (PyRuntimeError.nameError "JSONResponse") ∧
    get_single_question (-1) "Software Engineer" =
      Except.error (PyRuntimeError.nameError "JSONResponse") ∧
    get_single_question 0 "Software Engineer" =
      Except.ok
        { role := "Software Engineer"
          index := 0
          total := 8
          question := "Tell me about yourself and your software engineering background."
          is_last := false } := by
  refine ⟨rfl, rfl, rfl⟩

/-! ## Resume analyzer (resume.py) -/

/-- resume.py lines 9-28: the technical skill vocabulary, in order. -/
def TECH_SKILLS : List String :=
  [ "python", "javascript", "typescript", "java", "c++", "c#", "go", "rust",
    "ruby", "php", "swift", "kotlin", "scala", "r", "matlab",
    "react", "vue", "angular", "next.js", "tailwind", "html", "css", "sass",
    "redux", "graphql", "webpack",
    "fastapi", "django", "flask", "node.js", "express", "spring", "rails",
    "rest api", "microservices",
    "pandas", "numpy", "tensorflow", "pytorch", "scikit-learn", "keras",
    "machine learning", "deep learning", "nlp", "computer vision",
    "data science", "sql", "postgresql", "mysql", "mongodb", "redis",
    "docker", "kubernetes", "aws", "gcp", "azure", "ci/cd", "jenkins",
    "github actions", "terraform", "linux", "git",
    "agile", "scrum", "jira", "figma", "adobe xd" ]

/-- resume.py lines 30-34: the soft skill vocabulary, in order. -/
def SOFT_SKILLS : List String :=
  [ "leadership", "communication", "teamwork", "problem solving",
    "critical thinking", "time management", "collaboration", "mentoring",
    "public speaking", "project management" ]

/-- The Skill Extraction Result dictionary. -/
structure SkillExtraction where
  technical : List String
  soft : List String
  all : List String
deriving DecidableEq, Repr

/-- resume.py lines 61-72: extract_skills. -/
def extract_skills (text : String) : SkillExtraction :=
  let text_lower := pyLower text
  let found_tech := TECH_SKILLS.filter (fun skill => pyContains text_lower skill)
  let found_soft := SOFT_SKILLS.filter (fun skill => pyContains text_lower skill)
  { technical := found_tech
    soft := found_soft
    all := found_tech ++ found_soft }

theorem pyContainsAux_iff (hay pat : List Char) :
    pyContainsAux hay pat = true ↔ pat <:+: hay := by
  induction hay with
  | nil =>
    rw [pyContainsAux]
    simp [ List.isPrefixOf_iff_prefix, List.infix_nil]
  | cons c t ih =>
    rw [pyContainsAux]
    simp [ List.isPrefixOf_iff_prefix, List.infix_cons_iff, ih]

theorem pyContains_iff (s pat : String) :
    pyContains s pat = true ↔ pat.data <:+: s.data := pyContainsAux_iff s.data pat.data

/-! ## Claim C8 -/

/-- C8: extract_skills is case-insensitive (any two texts with the same
lowercasing give the identical Skill Extraction Result), a skill is
included exactly when it occurs as a substring of the lowercased text, and
the technical and soft result lists follow the fixed vocabulary order (they
are sublists of the vocabularies). -/
theorem C8_extract_skills_case_insensitive :
    (∀ t₁ t₂ : String, pyLower t₁ = pyLower t₂ →
        extract_skills t₁ = extract_skills t₂) ∧
    (∀ t s : String,
        (s ∈ (extract_skills t).technical ↔
          s ∈ TECH_SKILLS ∧ s.data <:+: (pyLower t).data) ∧
        (s ∈ (extract_skills t).soft ↔
          s ∈ SOFT_SKILLS ∧ s.data <:+: (pyLower t).data)) ∧
    (∀ t : String, (extract_skills t).technical.Sublist TECH_SKILLS ∧
        (extract_skills t).soft.Sublist SOFT_SKILLS) := by
  refine ⟨?_, ?_, ?_⟩
  · intro t₁ t₂ h
    unfold extract_skills
    rw [h]
  · intro t s
    constructor
    · simp [extract_skills, List.mem_filter, pyContains_iff]
    · simp [extract_skills, List.mem_filter, pyContains_iff]
  · intro t
    exact ⟨List.filter_sublist _, List.filter_sublist _⟩

/-- Witness for C8 at the spec's example pair "Python, REACT" versus
"python, react". -/
theorem C8_extract_skills_case_insensitive_witness :
    pyLower "Python, REACT" = pyLower "python, react" ∧
    extract_skills "Python, REACT" = extract_skills "python, react" :=
  ⟨by decide,
   C8_extract_skills_case_insensitive.1 "Python, REACT" "python, react" (by decide)⟩

/-! ## Claim C9 -/

/-- An entry of the personalized question list. -/
structure PersonalizedQuestion where
  skill : String
  question : String
  type : String
deriving DecidableEq, Repr

/-- resume.py lines 93-107: the fixed skill → question table. -/
def skill_questions : List (String × String) :=
  [ ("python", "Can you walk me through a Python project where you used advanced features like decorators or async programming?"),
    ("react", "How have you managed complex state in a large React application?"),
    ("machine learning", "Describe a machine learning model you built end to end — from data to deployment."),
    ("docker", "How have you used Docker in your development or deployment workflow?"),
    ("sql", "Can you explain a time you optimized a slow SQL query?"),
    ("aws", "What AWS services have you used and what were the use cases?"),
    ("leadership", "Tell me about a time you led a team through a difficult project."),
    ("typescript", "How has TypeScript improved the quality of your JavaScript projects?"),
    ("fastapi", "Describe an API you built with FastAPI. What design decisions did you make?"),
    ("django", "What's your approach to structuring a Django project for scalability?"),
    ("kubernetes", "How have you used Kubernetes to manage containerized applications?"),
    ("tensorflow", "Walk me through a neural network you trained using TensorFlow."),
    ("communication", "Give an example of how you communicated a complex technical concept to a non-technical stakeholder.") ]

/-- resume.py lines 119-123: the generic motivational question always
appended. -/
def genericQuestion (role : String) : PersonalizedQuestion :=
  { skill := "general"
    question := "What excites you most about this " ++ role ++
      " role, and what unique value do you bring?"
    type := "motivational" }

/-- The skill-specific entry produced for one mapped skill. -/
def skillEntry (skill : String) : Option PersonalizedQuestion :=
  (skill_questions.lookup skill).map (fun q =>
    { skill := skill, question := q, type := "skill-specific" })

/-- resume.py lines 89-125: generate_personalized_questions.  The Python
loop over skills[:5] appending only mapped skills is the filterMap. -/
def generate_personalized_questions (skills : List String) (role : String) :
    List PersonalizedQuestion :=
  ((skills.take 5).filterMap skillEntry) ++ [genericQuestion role]

theorem filterMap_skillEntry_map_skill (l : List String) :
    ((l.filterMap skillEntry).map (fun e => e.skill)) =
      l.filter (fun s => (skill_questions.lookup s).isSome) := by
  induction l with
  | nil => rfl
  | cons s t ih =>
    cases h : skill_questions.lookup s with
    | none => simp [List.filterMap_cons, List.filter_cons, skillEntry, h, ih]
    | some q => simp [List.filterMap_cons, List.filter_cons, skillEntry, h, ih]

/-- C9: generate_personalized_questions looks up only the first 5 input
skills, emits one skill-specific entry per mapped skill in input order
(skipping unmapped skills, no fallback entry), always ends with exactly the
one generic motivational question referencing the role, and therefore has
between 1 and 6 entries. -/
theorem C9_personalized_questions (skills : List String) (role : String) :
    1 ≤ (generate_personalized_questions skills role).length ∧
    (generate_personalized_questions skills role).length ≤ 6 ∧
    (generate_personalized_questions skills role).getLast? =
      some (genericQuestion role) ∧
    ((generate_personalized_questions skills role).dropLast.map (fun e => e.skill)) =
      (skills.take 5).filter (fun s => (skill_questions.lookup s).isSome) ∧
    ∀ e ∈ (generate_personalized_questions skills role).dropLast,
      e.type = "skill-specific" ∧ skill_questions.lookup e.skill = some e.question := by
  have hlen1 : ((skills.take 5).filterMap skillEntry).length ≤ (skills.take 5).length :=
    List.length_filterMap_le _ _
  have hlen2 : (skills.take 5).length ≤ 5 := List.length_take_le _ _
  refine ⟨?_, ?_, ?_, ?_, ?_⟩
  · unfold generate_personalized_questions
    simp
  · unfold generate_personalized_questions
    simp
    omega
  · unfold generate_personalized_questions
    exact List.getLast?_concat _
  · unfold generate_personalized_questions
    rw [List.dropLast_concat]
    exact filterMap_skillEntry_map_skill _
  · unfold generate_personalized_questions
    rw [List.dropLast_concat]
    intro e he
    rw [List.mem_filterMap] at he
    obtain ⟨a, ha, hm⟩ := he
    cases h : skill_questions.lookup a with
    | none => rw [skillEntry, h] at hm; simp at hm
    | some q =>
      rw [skillEntry, h] at hm
      simp at hm
      subst hm
      exact ⟨rfl, by rw [h]⟩

/-- Witness for C9's per-entry conjunct at skills = ["python"],
role = "Software Engineer". -/
theorem C9_personalized_questions_witness :
    ({ skill := "python",
       question := "Can you walk me through a Python project where you used advanced features like decorators or async programming?",
       type := "skill-specific" } : PersonalizedQuestion) ∈
      (generate_personalized_questions ["python"] "Software Engineer").dropLast ∧
    (({ skill := "python",
        question := "Can you walk me through a Python project where you used advanced features like decorators or async programming?",
        type := "skill-specific" } : PersonalizedQuestion).type = "skill-specific" ∧
      skill_questions.lookup "python" =
        some "Can you walk me through a Python project where you used advanced features like decorators or async programming?") :=
  ⟨by decide,
   (C9_personalized_questions ["python"] "Software Engineer").2.2.2.2 _ (by decide)⟩

/-! ## Claim C10 -/

/-- The response dictionary of the /text endpoint (the score breakdown is
spread into the response; kept nested here). -/
structure TextAnalysis where
  question_index : ℤ
  transcript : String
  word_count : ℕ
  duration_seconds : ℚ
  score : ScoreResult
deriving DecidableEq, Repr

/-- analyze.py lines 148-172: analyze_text, with
word_count = len(transcript.split()). -/
def analyze_text (transcript : String) (duration : ℚ) (question_index : ℤ) :
    TextAnalysis :=
  let word_count := (pySplit transcript).length
  { question_index := question_index
    transcript := transcript
    word_count := word_count
    duration_seconds := duration
    score := calculate_confidence_score transcript duration word_count }

theorem pySplitAux_all_space (l : List Char) (h : ∀ c ∈ l, c.isWhitespace) :
    pySplitAux l [] = [] := by
  induction l with
  | nil => rfl
  | cons c t ih =>
    have hc : c.isWhitespace := h c (by simp)
    rw [pySplitAux]
    simp only [hc, if_true, List.isEmpty_nil]
    exact ih (fun x hx => h x (by simp [hx]))

/-- C10: in the /text endpoint the word_count used for scoring and echoed
in the response is exactly the number of whitespace-delimited tokens of the
transcript (Python str.split semantics), so an all-whitespace transcript
scores with word_count 0. -/
theorem C10_text_word_count (t : String) (d : ℚ) (qi : ℤ) :
    (analyze_text t d qi).word_count = (pySplit t).length ∧
    (analyze_text t d qi).score =
      calculate_confidence_score t d ((pySplit t).length) ∧
    ((∀ c ∈ t.data, c.isWhitespace) → (analyze_text t d qi).word_count = 0) := by
  refine ⟨rfl, rfl, ?_⟩
  intro h
  show (pySplit t).length = 0
  unfold pySplit
  rw [pySplitAux_all_space t.data h]
  rfl

/-- Witness for C10 at the all-whitespace transcript "   ". -/
theorem C10_text_word_count_witness :
    (∀ c ∈ ("   " : String).data, c.isWhitespace) ∧
    (analyze_text "   " 30 0).word_count = 0 :=
  ⟨by decide, (C10_text_word_count "   " 30 0).2.2 (by decide)⟩

/-! ## Report aggregator: generate_report (analyze.py lines 175-211) -/

/-- One element of the client-supplied score list (the fields the code
reads: question_index and confidence_score). -/
structure ScoreEntry where
  question_index : ℤ
  confidence_score : ℤ
deriving DecidableEq, Repr

/-- The best_answer / weakest_answer reference inside the report. -/
structure AnswerRef where
  question_index : ℤ
  score : ℤ
deriving DecidableEq, Repr

/-- An HTTPException raised by an endpoint. -/
structure HttpError where
  status_code : ℕ
  detail : String
deriving DecidableEq, Repr

/-- The report dictionary. -/
structure Report where
  overall_score : ℤ
  overall_rating : String
  summary : String
  total_questions : ℕ
  best_answer : AnswerRef
  weakest_answer : AnswerRef
  per_question : List ScoreEntry
deriving DecidableEq, Repr

/-- analyze.py lines 186-197: the rating / summary if-chain of
generate_report. -/
def reportRatingSummary (avg : ℤ) : String × String :=
  if 85 ≤ avg then
    ("Excellent", "Outstanding performance! You demonstrated strong communication, clarity, and confidence throughout the interview.")
  else if 70 ≤ avg then
    ("Good", "Solid performance overall. You showed good communication skills with some room to improve depth and fluency.")
  else if 50 ≤ avg then
    ("Average", "Decent attempt. Focus on reducing filler words, increasing answer depth, and maintaining a steady speaking pace.")
  else
    ("Needs Improvement", "Keep practicing! Work on structuring your answers using the STAR method and building confidence in delivery.")

/-- analyze.py line 200, Python max(scores, key=confidence_score): the
left fold keeps the current element unless a strictly greater one appears,
so the FIRST of equal maxima wins. -/
def bestOf (h : ScoreEntry) (t : List ScoreEntry) : ScoreEntry :=
  t.foldl (fun acc s =>
    if acc.confidence_score < s.confidence_score then s else acc) h

/-- analyze.py line 201, Python min(scores, key=confidence_score): the
FIRST of equal minima wins. -/
def worstOf (h : ScoreEntry) (t : List ScoreEntry) : ScoreEntry :=
  t.foldl (fun acc s =>
    if s.confidence_score < acc.confidence_score then s else acc) h

/-- analyze.py lines 175-211: generate_report. -/
def generate_report (scores : List ScoreEntry) : Except HttpError Report :=
  match scores with
  | [] => Except.error { status_code := 400, detail := "No scores provided." }
  | h :: t =>
    let avg_score : ℤ :=
      pyRound ((((h :: t).map (fun s => s.confidence_score)).sum : ℚ) /
        (((h :: t).length : ℕ) : ℚ))
    let rs := reportRatingSummary avg_score
    let best := bestOf h t
    let worst := worstOf h t
    Except.ok
      { overall_score := avg_score
        overall_rating := rs.1
        summary := rs.2
        total_questions := (h :: t).length
        best_answer :=
          { question_index := best.question_index, score := best.confidence_score }
        weakest_answer :=
          { question_index := worst.question_index, score := worst.confidence_score }
        per_question := h :: t }

theorem reportRating_fst (avg : ℤ) :
    (reportRatingSummary avg).1 = ratingLabel avg := by
  unfold reportRatingSummary ratingLabel
  split_ifs <;> rfl

theorem bestOf_first_max (h : ScoreEntry) (t : List ScoreEntry) :
    ∃ i, ∃ hi : i < (h :: t).length,
      bestOf h t = (h :: t).get ⟨i, hi⟩ ∧
      (∀ x ∈ h :: t, x.confidence_score ≤ (bestOf h t).confidence_score) ∧
      (∀ x ∈ (h :: t).take i, x.confidence_score < (bestOf h t).confidence_score) := by
  induction t generalizing h with
  | nil =>
    refine ⟨0, by simp, rfl, ?_, ?_⟩
    · intro x hx
      rw [List.mem_singleton] at hx
      subst hx
      exact le_refl _
    · intro x hx
      simp at hx
  | cons s t ih =>
    have hstep : bestOf h (s :: t) =
        bestOf (if h.confidence_score < s.confidence_score then s else h) t := rfl
    by_cases hc : h.confidence_score < s.confidence_score
    · rw [hstep, if_pos hc]
      obtain ⟨i, hi, heq, hall, htake⟩ := ih s
      have hsle : s.confidence_score ≤ (bestOf s t).confidence_score :=
        hall s (List.mem_cons_self s t)
      refine ⟨i + 1, by simpa using hi, ?_, ?_, ?_⟩
      · rw [List.get_cons_succ]
        exact heq
      · intro x hx
        rcases List.mem_cons.mp hx with hx | hx
        · subst hx
          exact le_of_lt (lt_of_lt_of_le hc hsle)
        · exact hall x hx
      · intro x hx
        rw [List.take_succ_cons] at hx
        rcases List.mem_cons.mp hx with hx | hx
        · subst hx
          exact lt_of_lt_of_le hc hsle
        · exact htake x hx
    · rw [hstep, if_neg hc]
      have hsh : s.confidence_score ≤ h.confidence_score := le_of_not_lt hc
      obtain ⟨i, hi, heq, hall, htake⟩ := ih h
      cases i with
      | zero =>
        have hbh : bestOf h t = h := by
          rw [heq]
          rfl
        refine ⟨0, by simp, hbh, ?_, ?_⟩
        · intro x hx
          rcases List.mem_cons.mp hx with hx | hx
          · rw [hx]
            exact hall h (List.mem_cons_self h t)
          · rcases List.mem_cons.mp hx with hx | hx
            · rw [hx]
              exact le_trans hsh (hall h (List.mem_cons_self h t))
            · exact hall x (List.mem_cons_of_mem h hx)
        · intro x hx
          simp at hx
      | succ k =>
        have hhlt : h.confidence_score < (bestOf h t).confidence_score := by
          have := htake h (by rw [List.take_succ_cons]; exact List.mem_cons_self _ _)
          exact this
        refine ⟨k + 2, ?_, ?_, ?_, ?_⟩
        · have : k + 1 < (h :: t).length := hi
          simp only [List.length_cons] at this ⊢
          omega
        · rw [List.get_cons_succ, List.get_cons_succ]
          rw [heq, List.get_cons_succ]
        · intro x hx
          rcases List.mem_cons.mp hx with hx | hx
          · rw [hx]
            exact le_of_lt hhlt
          · rcases List.mem_cons.mp hx with hx | hx
            · rw [hx]
              exact le_of_lt (lt_of_le_of_lt hsh hhlt)
            · exact hall x (List.mem_cons_of_mem h hx)
        · intro x hx
          rw [List.take_succ_cons] at hx
          rcases List.mem_cons.mp hx with hx | hx
          · rw [hx]
            exact hhlt
          · rw [List.take_succ_cons] at hx
            rcases List.mem_cons.mp hx with hx | hx
            · rw [hx]
              exact lt_of_le_of_lt hsh hhlt
            · exact htake x (by rw [List.take_succ_cons]; exact List.mem_cons_of_mem h hx)

theorem worstOf_first_min (h : ScoreEntry) (t : List ScoreEntry) :
    ∃ i, ∃ hi : i < (h :: t).length,
      worstOf h t = (h :: t).get ⟨i, hi⟩ ∧
      (∀ x ∈ h :: t, (worstOf h t).confidence_score ≤ x.confidence_score) ∧
      (∀ x ∈ (h :: t).take i, (worstOf h t).confidence_score < x.confidence_score) := by
  induction t generalizing h with
  | nil =>
    refine ⟨0, by simp, rfl, ?_, ?_⟩
    · intro x hx
      rw [List.mem_singleton] at hx
      rw [hx]
      exact le_refl _
    · intro x hx
      simp at hx
  | cons s t ih =>
    have hstep : worstOf h (s :: t) =
        worstOf (if s.confidence_score < h.confidence_score then s else h) t := rfl
    by_cases hc : s.confidence_score < h.confidence_score
    · rw [hstep, if_pos hc]
      obtain ⟨i, hi, heq, hall, htake⟩ := ih s
      have hsle : (worstOf s t).confidence_score ≤ s.confidence_score :=
        hall s (List.mem_cons_self s t)
      refine ⟨i + 1, by simpa using hi, ?_, ?_, ?_⟩
      · rw [List.get_cons_succ]
        exact heq
      · intro x hx
        rcases List.mem_cons.mp hx with hx | hx
        · rw [hx]
          exact le_of_lt (lt_of_le_of_lt hsle hc)
        · exact hall x hx
      · intro x hx
        rw [List.take_succ_cons] at hx
        rcases List.mem_cons.mp hx with hx | hx
        · rw [hx]
          exact lt_of_le_of_lt hsle hc
        · exact htake x hx
    · rw [hstep, if_neg hc]
      have hsh : h.confidence_score ≤ s.confidence_score := le_of_not_lt hc
      obtain ⟨i, hi, heq, hall, htake⟩ := ih h
      cases i with
      | zero =>
        have hbh : worstOf h t = h := by
          rw [heq]
          rfl
        refine ⟨0, by simp, hbh, ?_, ?_⟩
        · intro x hx
          rcases List.mem_cons.mp hx with hx | hx
          · rw [hx]
            exact hall h (List.mem_cons_self h t)
          · rcases List.mem_cons.mp hx with hx | hx
            · rw [hx]
              exact le_trans (hall h (List.mem_cons_self h t)) hsh
            · exact hall x (List.mem_cons_of_mem h hx)
        · intro x hx
          simp at hx
      | succ k =>
        have hhlt : (worstOf h t).confidence_score < h.confidence_score := by
          have := htake h (by rw [List.take_succ_cons]; exact List.mem_cons_self _ _)
          exact this
        refine ⟨k + 2, ?_, ?_, ?_, ?_⟩
        · have : k + 1 < (h :: t).length := hi
          simp only [List.length_cons] at this ⊢
          omega
        · rw [List.get_cons_succ, List.get_cons_succ]
          rw [heq, List.get_cons_succ]
        · intro x hx
          rcases List.mem_cons.mp hx with hx | hx
          · rw [hx]
            exact le_of_lt hhlt
          · rcases List.mem_cons.mp hx with hx | hx
            · rw [hx]
              exact le_of_lt (lt_of_lt_of_le hhlt hsh)
            · exact hall x (List.mem_cons_of_mem h hx)
        · intro x hx
          rw [List.take_succ_cons] at hx
          rcases List.mem_cons.mp hx with hx | hx
          · rw [hx]
            exact hhlt
          · rw [List.take_succ_cons] at hx
            rcases List.mem_cons.mp hx with hx | hx
            · rw [hx]
              exact lt_of_lt_of_le hhlt hsh
            · exact htake x (by rw [List.take_succ_cons]; exact List.mem_cons_of_mem h hx)

theorem bestOf_replicate (e : ScoreEntry) (m : ℕ) :
    bestOf e (List.replicate m e) = e := by
  induction m with
  | zero => rfl
  | succ k ih =>
    rw [List.replicate_succ]
    unfold bestOf
    rw [List.foldl_cons, if_neg (lt_irrefl _)]
    exact ih

theorem worstOf_replicate (e : ScoreEntry) (m : ℕ) :
    worstOf e (List.replicate m e) = e := by
  induction m with
  | zero => rfl
  | succ k ih =>
    rw [List.replicate_succ]
    unfold worstOf
    rw [List.foldl_cons, if_neg (lt_irrefl _)]
    exact ih

/-! ## Claim C7 -/

/-- C7: generate_report fails with HTTP 400 exactly on the empty list; on a
non-empty list it returns the banker's-rounded mean of the confidence
scores, rates it with the same thresholds as the scorer, and picks
best/weakest by max/min confidence score with ties resolved to the first
occurrence (the winner sits at an index all of whose predecessors score
strictly worse); N identical scores give that score as average, best and
worst. -/
theorem C7_generate_report :
    generate_report [] =
      Except.error { status_code := 400, detail := "No scores provided." } ∧
    (∀ (h : ScoreEntry) (t : List ScoreEntry), ∃ r,
      generate_report (h :: t) = Except.ok r ∧
      r.overall_score =
        pyRound ((((h :: t).map (fun s => s.confidence_score)).sum : ℚ) /
          (((h :: t).length : ℕ) : ℚ)) ∧
      r.overall_rating = ratingLabel r.overall_score ∧
      (∃ b, (∃ i, ∃ hi : i < (h :: t).length,
          b = (h :: t).get ⟨i, hi⟩ ∧
          (∀ x ∈ h :: t, x.confidence_score ≤ b.confidence_score) ∧
          (∀ x ∈ (h :: t).take i, x.confidence_score < b.confidence_score)) ∧
        r.best_answer =
          { question_index := b.question_index, score := b.confidence_score }) ∧
      (∃ w, (∃ i, ∃ hi : i < (h :: t).length,
          w = (h :: t).get ⟨i, hi⟩ ∧
          (∀ x ∈ h :: t, w.confidence_score ≤ x.confidence_score) ∧
          (∀ x ∈ (h :: t).take i, w.confidence_score < x.confidence_score)) ∧
        r.weakest_answer =
          { question_index := w.question_index, score := w.confidence_score })) ∧
    (∀ (e : ScoreEntry) (n : ℕ), 0 < n → ∃ r,
      generate_report (List.replicate n e) = Except.ok r ∧
      r.overall_score = e.confidence_score ∧
      r.best_answer =
        { question_index := e.question_index, score := e.confidence_score } ∧
      r.weakest_answer =
        { question_index := e.question_index, score := e.confidence_score }) := by
  refine ⟨rfl, ?_, ?_⟩
  · intro h t
    refine ⟨_, rfl, rfl, ?_, ?_, ?_⟩
    · exact reportRating_fst _
    · exact ⟨bestOf h t, bestOf_first_max h t, rfl⟩
    · exact ⟨worstOf h t, worstOf_first_min h t, rfl⟩
  · intro e n hn
    obtain ⟨m, rfl⟩ : ∃ m, n = m + 1 := ⟨n - 1, by omega⟩
    have hne : ((m : ℚ) + 1) ≠ 0 := by positivity
    have hs : ((e :: List.replicate m e).map (fun s => (s.confidence_score : ℚ))).sum
        = ((m : ℚ) + 1) * (e.confidence_score : ℚ) := by
      rw [← List.replicate_succ, List.map_replicate, List.sum_replicate, nsmul_eq_mul]
      push_cast
      ring
    have hl : ((e :: List.replicate m e).length : ℕ) = m + 1 := by
      simp
    have havg :
        pyRound ((((e :: List.replicate m e).map (fun s => s.confidence_score)).sum : ℚ) /
          ((((e :: List.replicate m e).length : ℕ)) : ℚ)) = e.confidence_score := by
      rw [hs, hl]
      have h2 : (((m : ℚ) + 1) * (e.confidence_score : ℚ)) / (((m + 1 : ℕ)) : ℚ)
          = (e.confidence_score : ℚ) := by
        push_cast
        rw [mul_comm ((m : ℚ) + 1) (e.confidence_score : ℚ), mul_div_assoc,
          div_self hne, mul_one]
      rw [h2, pyRound_intCast]
    rw [List.replicate_succ]
    refine ⟨_, rfl, havg, ?_, ?_⟩
    · show ({ question_index := (bestOf e (List.replicate m e)).question_index,
              score := (bestOf e (List.replicate m e)).confidence_score } : AnswerRef) = _
      rw [bestOf_replicate]
    · show ({ question_index := (worstOf e (List.replicate m e)).question_index,
              score := (worstOf e (List.replicate m e)).confidence_score } : AnswerRef) = _
      rw [worstOf_replicate]

/-- Witness for C7's replicate conjunct at three identical scores of 82. -/
theorem C7_generate_report_witness :
    (0 : ℕ) < 3 ∧ ∃ r,
      generate_report
        (List.replicate 3 { question_index := 0, confidence_score := 82 }) =
        Except.ok r ∧
      r.overall_score = 82 ∧
      r.best_answer = { question_index := 0, score := 82 } ∧
      r.weakest_answer = { question_index := 0, score := 82 } :=
  ⟨by decide,
   C7_generate_report.2.2 { question_index := 0, confidence_score := 82 } 3 (by decide)⟩
